import Mathlib

/-!
# Edge proxy worker, scale script and deploy script: a shallow embedding

The worker (`cloudflare-worker.js`) is embedded as pure functions over explicit
request / response records.  Its only effect, the outbound `fetch` to the
backend, is an explicit parameter `backend`, and every handler returns the list
of outbound requests it issued together with its result (a response, or the
failure with which the returned promise rejects).

Platform objects are modelled as follows.

* `new URL(request.url)` : the request carries its URL already split into the
  components the URL parser yields (`origin`, `pathname`, `search`, `hash`).
* `Headers` : an ordered list of name/value pairs; names are compared
  ASCII-case-insensitively, `get` joins all values of a name with `", "`,
  `set` overwrites the first entry of the name and drops the others, or
  appends when the name is absent.
* `new Response(body, init)` : status, status text and a copy of the headers
  are taken from `init`, the body is the one given.
-/

namespace Worker

/-- The reason with which a promise rejects (a thrown exception). -/
structure Failure where
  message : String
  deriving DecidableEq, Repr

/-- An ordered header list, as held by a `Headers` object. -/
abbrev Headers := List (String × String)

/-- ASCII lower-casing of a header name, as a list of characters. -/
def lowerName (s : String) : List Char :=
  s.data.map Char.toLower

/-- Header names match when they are equal up to ASCII case. -/
def sameName (a b : String) : Bool :=
  decide (lowerName a = lowerName b)

/-- The model of `headers.get(name)`: `null` when no entry has the name, else
the values of all entries of that name, in order, joined by `", "`. -/
def Headers.get (h : Headers) (name : String) : Option String :=
  match (h.filter (fun e => sameName e.1 name)).map Prod.snd with
  | [] => none
  | v :: vs => some (", ".intercalate (v :: vs))

/-- Overwrite the first entry named `name` with `value` and drop every later
entry of that name (the list is assumed to contain the name). -/
def Headers.replaceFirst (name value : String) : Headers → Headers
  | [] => []
  | e :: rest =>
    if sameName e.1 name then
      (e.1, value) :: rest.filter (fun x => !sameName x.1 name)
    else
      e :: Headers.replaceFirst name value rest

/-- The model of `headers.set(name, value)`. -/
def Headers.set (h : Headers) (name value : String) : Headers :=
  if h.any (fun e => sameName e.1 name) then
    Headers.replaceFirst name value h
  else
    h ++ [(name, value)]

/-- The components of a parsed URL (`new URL(request.url)`). -/
structure URL where
  origin : String
  pathname : String
  search : String
  hash : String
  deriving DecidableEq, Repr

/-- The serialisation of a URL (`url.href`). -/
def URL.href (u : URL) : String :=
  u.origin ++ u.pathname ++ u.search ++ u.hash

/-- An inbound request. -/
structure Request where
  method : String
  url : URL
  headers : Headers
  body : Option String
  deriving DecidableEq, Repr

/-- A response: from the backend, or built by the worker. -/
structure Response where
  status : Nat
  statusText : String
  headers : Headers
  body : Option String
  deriving DecidableEq, Repr

/-- The model of `response.ok`: the status is in the range 200 to 299. -/
def Response.ok (r : Response) : Bool :=
  decide (200 ≤ r.status) && decide (r.status ≤ 299)

/-- The worker's environment bindings. -/
structure Env where
  NORTHFLANK_SERVICE_URL : Option String
  deriving DecidableEq, Repr

/-- An outbound call `fetch(url, { method, headers, body })`. -/
structure OutboundRequest where
  url : String
  method : String
  headers : Headers
  body : Option String
  deriving DecidableEq, Repr

/-- The backend as seen by the worker: an outbound call either resolves with a
response or rejects with a failure. -/
abbrev Backend := OutboundRequest → Except Failure Response

/-- What a handler did: the outbound calls it issued, in order, and the
response it resolved with or the failure it rejected with. -/
structure Outcome where
  calls : List OutboundRequest
  result : Except Failure Response

/-- The model of `value || fallback` on an optional string: `undefined` and the
empty string are falsy. -/
def orDefault (value : Option String) (fallback : String) : String :=
  match value with
  | none => fallback
  | some s => if s = "" then fallback else s

/-- The model of `s.startsWith(p)`. -/
def startsWith (s p : String) : Bool :=
  p.data.isPrefixOf s.data

/-- The model of `JSON.stringify` on an object whose values are strings that need
no escaping. -/
def jsonStringify (fields : List (String × String)) : String :=
  "\x7b" ++ ",".intercalate (fields.map (fun f => "\"" ++ f.1 ++ "\":\"" ++ f.2 ++ "\"")) ++ "\x7d"

/-- The model of `new Response(body, init)` where `init` is a response. -/
def Response.rewrap (body : Option String) (init : Response) : Response :=
  { status := init.status, statusText := init.statusText, headers := init.headers, body := body }

/-- The fallback base URL of the backend. -/
def defaultServiceUrl : String := "https://shirt-video-maker.app.northflank.com"

/-- The base URL of the backend: `env.NORTHFLANK_SERVICE_URL || default`. -/
def northflankUrl (env : Env) : String :=
  orDefault env.NORTHFLANK_SERVICE_URL defaultServiceUrl

/-- The outbound call built by `handleVideoRequest`. -/
def forwardRequest (request : Request) (env : Env) : OutboundRequest :=
  { url := northflankUrl env ++ request.url.pathname
    method := request.method
    headers := request.headers
    body := request.body }

/-- The embedding of `handleVideoRequest(request, env)`. -/
def handleVideoRequest (request : Request) (env : Env) (backend : Backend) : Outcome :=
  let out := forwardRequest request env
  match backend out with
  | .error e => { calls := [out], result := .error e }
  | .ok response =>
    if request.method = "GET" ∧ response.ok = true then
      let newResponse := Response.rewrap response.body response
      let newResponse :=
        { newResponse with headers := newResponse.headers.set "Cache-Control" "public, max-age=3600" }
      let newResponse :=
        { newResponse with headers := newResponse.headers.set "CF-Cache-Status" "HIT" }
      { calls := [out], result := .ok newResponse }
    else
      { calls := [out], result := .ok response }

/-- The response built for the health check. -/
def healthResponse : Response :=
  { status := 200
    statusText := ""
    headers := [("Content-Type", "application/json")]
    body := some (jsonStringify [("status", "ok"), ("worker", "active")]) }

/-- The response built when no route matches; a string body brings its default
content type. -/
def notFoundResponse : Response :=
  { status := 404
    statusText := ""
    headers := [("content-type", "text/plain;charset=UTF-8")]
    body := some "Not Found" }

/-- The embedding of the worker's `fetch(request, env, ctx)` handler. -/
def fetch (request : Request) (env : Env) (backend : Backend) : Outcome :=
  let url := request.url
  if startsWith url.pathname "/api/short-video" = true then
    handleVideoRequest request env backend
  else if url.pathname = "/health" then
    { calls := [], result := .ok healthResponse }
  else
    { calls := [], result := .ok notFoundResponse }

end Worker

/-!
# The scale script

`scripts/scale.js` is embedded over an explicit process state: the commands
handed to `execSync`, the console lines, and the exit code once `process.exit`
has been called.  The shell is a parameter: given the commands issued so far
and the next command, it yields the command's output or the message of the
error `execSync` throws.  The callback registered with `setTimeout` is run
after the body of `scaleService`, unless the process has exited before.
-/

namespace Scale

/-- The two console streams. -/
inductive Stream where
  | out
  | err
  deriving DecidableEq, Repr

/-- The observable state of the running script. -/
structure Proc where
  commands : List String
  log : List (Stream × String)
  exitCode : Option Nat
  deriving DecidableEq, Repr

/-- The state the script starts in. -/
def Proc.start : Proc :=
  { commands := [], log := [], exitCode := none }

/-- The model of `console.log` / `console.error`. -/
def Proc.print (p : Proc) (s : Stream) (line : String) : Proc :=
  { p with log := p.log ++ [(s, line)] }

/-- The shell behind `execSync`: from the commands run so far and the next
command, the command's output or the message of the error thrown. -/
abbrev Shell := List String → String → Except String String

/-- The variables of `process.env` the script reads. -/
structure ProcessEnv where
  SERVICE_NAME : Option String
  PROJECT_NAME : Option String
  deriving DecidableEq, Repr

/-- The `config` object. -/
structure Config where
  serviceName : String
  projectName : String
  deriving DecidableEq, Repr

/-- The `config` object as built from the environment. -/
def config (env : ProcessEnv) : Config :=
  { serviceName := Worker.orDefault env.SERVICE_NAME "shirt-video-maker"
    projectName := Worker.orDefault env.PROJECT_NAME "n8n-shirtvideo-mcp" }

/-- The characters of `StrWhiteSpaceChar`: white space and line terminators. -/
def isStrWhiteSpaceChar (c : Char) : Bool :=
  let n := c.toNat
  n = 0x9 || n = 0xA || n = 0xB || n = 0xC || n = 0xD || n = 0x20 || n = 0xA0 || n = 0x1680
    || (0x2000 ≤ n && n ≤ 0x200A) || n = 0x2028 || n = 0x2029 || n = 0x202F || n = 0x205F
    || n = 0x3000 || n = 0xFEFF

/-- Strip leading and trailing `StrWhiteSpaceChar`s. -/
def trimWhiteSpace (cs : List Char) : List Char :=
  ((cs.dropWhile isStrWhiteSpaceChar).reverse.dropWhile isStrWhiteSpaceChar).reverse

/-- The production `DecimalDigits`: one or more of `0` to `9`. -/
def isDecimalDigits (cs : List Char) : Bool :=
  !cs.isEmpty && cs.all Char.isDigit

/-- The production `ExponentPart`: `e` or `E`, an optional sign, decimal digits. -/
def isExponentPart : List Char → Bool
  | c :: rest =>
    (c = 'e' || c = 'E') &&
      match rest with
      | '+' :: ds => isDecimalDigits ds
      | '-' :: ds => isDecimalDigits ds
      | ds => isDecimalDigits ds
  | [] => false

/-- An optional `ExponentPart`. -/
def isOptExponentPart (cs : List Char) : Bool :=
  cs.isEmpty || isExponentPart cs

/-- The production `StrUnsignedDecimalLiteral`. -/
def isStrUnsignedDecimalLiteral (cs : List Char) : Bool :=
  if cs = "Infinity".data then true
  else
    let intPart := cs.takeWhile Char.isDigit
    match cs.dropWhile Char.isDigit with
    | '.' :: rest =>
      let fracPart := rest.takeWhile Char.isDigit
      (!intPart.isEmpty || !fracPart.isEmpty) && isOptExponentPart (rest.dropWhile Char.isDigit)
    | rest => !intPart.isEmpty && isOptExponentPart rest

/-- The production `StrDecimalLiteral`: an optional sign, then an unsigned literal. -/
def isStrDecimalLiteral : List Char → Bool
  | '+' :: cs => isStrUnsignedDecimalLiteral cs
  | '-' :: cs => isStrUnsignedDecimalLiteral cs
  | cs => isStrUnsignedDecimalLiteral cs

/-- A hexadecimal digit. -/
def isHexDigit (c : Char) : Bool :=
  c.isDigit || ('a' ≤ c && c ≤ 'f') || ('A' ≤ c && c ≤ 'F')

/-- The production `NonDecimalIntegerLiteral`: binary, octal or hexadecimal,
without sign and without separators. -/
def isNonDecimalIntegerLiteral : List Char → Bool
  | '0' :: c :: ds =>
    if c = 'b' || c = 'B' then !ds.isEmpty && ds.all (fun d => d = '0' || d = '1')
    else if c = 'o' || c = 'O' then !ds.isEmpty && ds.all (fun d => '0' ≤ d && d ≤ '7')
    else if c = 'x' || c = 'X' then !ds.isEmpty && ds.all isHexDigit
    else false
  | _ => false

/-- The goal symbol `StringNumericLiteral`: the strings `StringToNumber` maps to
a number rather than to `NaN`. -/
def isStringNumericLiteral (s : String) : Bool :=
  let cs := trimWhiteSpace s.data
  cs.isEmpty || isStrDecimalLiteral cs || isNonDecimalIntegerLiteral cs

/-- The model of `!value`: `undefined` and the empty string are falsy. -/
def isFalsy (value : Option String) : Bool :=
  match value with
  | none => true
  | some s => decide (s = "")

/-- The model of the global `isNaN(value)`: the value is converted to a number,
`undefined` to `NaN` and a string by `StringToNumber`. -/
def isNaN (value : Option String) : Bool :=
  match value with
  | none => true
  | some s => !isStringNumericLiteral s

/-- A value as it appears in a template literal. -/
def template (value : Option String) : String :=
  match value with
  | none => "undefined"
  | some s => s

/-- The embedding of `runCommand(command, description)`: the state after the
call, and the command's output unless the process has exited. -/
def runCommand (sh : Shell) (command description : String) (p : Proc) : Proc × Option String :=
  let p := p.print .out ("🔄 " ++ description ++ "...")
  let result := sh p.commands command
  let p := { p with commands := p.commands ++ [command] }
  match result with
  | .ok output => (p.print .out ("✅ " ++ description ++ " completed"), some output)
  | .error message =>
    ({ p.print .err ("❌ " ++ description ++ " failed: " ++ message) with exitCode := some 1 }, none)

/-- The command line built by `scaleService`. -/
def scaleCmd (c : Config) (replicas : Option String) : String :=
  "northflank scale service " ++ c.serviceName ++ " --project " ++ c.projectName
    ++ " --replicas " ++ template replicas

/-- The callback `scaleService` registers with `setTimeout`. -/
def checkScalingStatus (c : Config) (sh : Shell) (p : Proc) : Proc :=
  (runCommand sh ("northflank get service " ++ c.serviceName ++ " --project " ++ c.projectName)
    "Checking scaling status" p).1

/-- The embedding of `scaleService()`, run on a fresh process with the given
environment and `process.argv`. -/
def scaleService (env : ProcessEnv) (argv : List String) (sh : Shell) : Proc :=
  let c := config env
  let p := Proc.start
  let replicas := argv.get? 2
  if isFalsy replicas || isNaN replicas then
    let p := p.print .err "❌ Please provide a valid number of replicas"
    let p := p.print .out "Usage: npm run scale <number_of_replicas>"
    { p with exitCode := some 1 }
  else
    let p := p.print .out
      ("🔧 Scaling " ++ c.serviceName ++ " to " ++ template replicas ++ " instances...")
    let p := (runCommand sh (scaleCmd c replicas)
      ("Scaling service to " ++ template replicas ++ " replicas") p).1
    match p.exitCode with
    | some _ => p
    | none => checkScalingStatus c sh p

end Scale

/-!
# The deploy script

`scripts/deploy.js` is embedded as scripts over the process state of the scale
script.  A script step ends normally with a value, ends by throwing an error
(of which the message is kept), or ends the process through `process.exit`;
`try`/`catch` handles thrown errors only, and nothing runs after the process
has exited.  The callback registered with `setTimeout` is run after
`deployService`, unless the process has exited before.
-/

namespace Deploy

open Scale (Proc Shell Stream)

/-- How a piece of script ends. -/
inductive Completion (α : Type) where
  | normal (value : α)
  | thrown (message : String)
  | exited
  deriving DecidableEq, Repr

/-- A piece of script: from the process state before it to the state after it
and the way it ended. -/
def Script (α : Type) : Type :=
  Proc → Proc × Completion α

/-- Run a piece of script from a state. -/
def Script.run {α : Type} (x : Script α) (p : Proc) : Proc × Completion α :=
  x p

/-- End normally with a value. -/
def Script.pure {α : Type} (a : α) : Script α :=
  fun p => (p, .normal a)

/-- Sequencing: the rest runs only after a normal end. -/
def Script.bind {α β : Type} (x : Script α) (f : α → Script β) : Script β :=
  fun p =>
    match x p with
    | (p1, .normal a) => f a p1
    | (p1, .thrown message) => (p1, .thrown message)
    | (p1, .exited) => (p1, .exited)

/-- The model of `throw`. -/
def Script.throw {α : Type} (message : String) : Script α :=
  fun p => (p, .thrown message)

/-- The model of `try body catch (error) handler`: the handler runs when the body
throws, and only then. -/
def Script.tryCatch {α : Type} (body : Script α) (handler : String → Script α) : Script α :=
  fun p =>
    match body p with
    | (p1, .normal a) => (p1, .normal a)
    | (p1, .thrown message) => handler message p1
    | (p1, .exited) => (p1, .exited)

instance : Monad Script where
  pure := Script.pure
  bind := Script.bind

instance : MonadExcept String Script where
  throw := Script.throw
  tryCatch := Script.tryCatch

/-- The model of `console.log(line)`. -/
def consoleLog (line : String) : Script Unit :=
  fun p => (p.print .out line, .normal ())

/-- The model of `console.error(line)`. -/
def consoleError (line : String) : Script Unit :=
  fun p => (p.print .err line, .normal ())

/-- The model of `process.exit(code)`: the process ends, the call does not
return and does not throw. -/
def processExit {α : Type} (code : Nat) : Script α :=
  fun p => ({ p with exitCode := some code }, .exited)

/-- The model of `execSync(command, ...)`: the command is handed to the shell;
its output is returned, or its failure is thrown. -/
def execSync (sh : Shell) (command : String) : Script String :=
  fun p =>
    let p1 := { p with commands := p.commands ++ [command] }
    match sh p.commands command with
    | .ok output => (p1, .normal output)
    | .error message => (p1, .thrown message)

/-- The variables of `process.env` the script reads. -/
structure ProcessEnv where
  SERVICE_NAME : Option String
  PROJECT_NAME : Option String
  REPOSITORY : Option String
  BRANCH : Option String
  DOCKERFILE_PATH : Option String
  BUILD_CONTEXT : Option String
  PORT : Option String
  CPU_MILLICORES : Option String
  MEMORY_MB : Option String
  INSTANCES : Option String
  LOG_LEVEL : Option String
  PEXELS_API_KEY : Option String
  VIDEO_CACHE_SIZE_IN_BYTES : Option String
  DEV : Option String
  deriving DecidableEq, Repr

/-- The environment in which no variable is set. -/
def ProcessEnv.empty : ProcessEnv :=
  ⟨none, none, none, none, none, none, none, none, none, none, none, none, none, none⟩

/-- The `config` object. -/
structure Config where
  serviceName : String
  projectName : String
  repository : String
  branch : String
  dockerfilePath : String
  buildContext : String
  port : String
  cpu : String
  memory : String
  instances : String
  deriving DecidableEq, Repr

/-- The `config` object as built from the environment. -/
def config (env : ProcessEnv) : Config :=
  { serviceName := Worker.orDefault env.SERVICE_NAME "shirt-video-maker"
    projectName := Worker.orDefault env.PROJECT_NAME "n8n-shirtvideo-mcp"
    repository := Worker.orDefault env.REPOSITORY "Bzcasper/short-video-maker"
    branch := Worker.orDefault env.BRANCH "main"
    dockerfilePath := Worker.orDefault env.DOCKERFILE_PATH "/main.Dockerfile"
    buildContext := Worker.orDefault env.BUILD_CONTEXT "/"
    port := Worker.orDefault env.PORT "3123"
    cpu := Worker.orDefault env.CPU_MILLICORES "4000"
    memory := Worker.orDefault env.MEMORY_MB "16384"
    instances := Worker.orDefault env.INSTANCES "1" }

/-- The embedding of `runCommand(command, description)`. -/
def runCommand (sh : Shell) (command description : String) : Script String := do
  consoleLog ("🔄 " ++ description ++ "...")
  try
    let output ← execSync sh command
    consoleLog ("✅ " ++ description ++ " completed")
    pure output
  catch message =>
    consoleError ("❌ " ++ description ++ " failed: " ++ message)
    processExit 1

/-- The command of the existence check and of the status check. -/
def getCmd (c : Config) : String :=
  "northflank get service " ++ c.serviceName ++ " --project " ++ c.projectName

/-- The command line built by `createService`. -/
def createCmd (c : Config) (env : ProcessEnv) : String :=
  "northflank create service combined \\\n    --name \"" ++ c.serviceName
    ++ "\" \\\n    --project \"" ++ c.projectName
    ++ "\" \\\n    --repository \"" ++ c.repository
    ++ "\" \\\n    --branch \"" ++ c.branch
    ++ "\" \\\n    --dockerfile \"" ++ c.dockerfilePath
    ++ "\" \\\n    --build-context \"" ++ c.buildContext
    ++ "\" \\\n    --port " ++ c.port
    ++ " \\\n    --cpu " ++ c.cpu
    ++ " \\\n    --memory " ++ c.memory
    ++ " \\\n    --replicas " ++ c.instances
    ++ " \\\n    --env LOG_LEVEL=\"" ++ Worker.orDefault env.LOG_LEVEL "debug"
    ++ "\" \\\n    --env PEXELS_API_KEY=\"" ++ Scale.template env.PEXELS_API_KEY
    ++ "\" \\\n    --env VIDEO_CACHE_SIZE_IN_BYTES=\""
    ++ Worker.orDefault env.VIDEO_CACHE_SIZE_IN_BYTES "2097152000"
    ++ "\" \\\n    --env DEV=\"" ++ Worker.orDefault env.DEV "false" ++ "\""

/-- The command line built by `updateService`. -/
def updateCmd (c : Config) : String :=
  "northflank update service " ++ c.serviceName
    ++ " \\\n    --project " ++ c.projectName
    ++ " \\\n    --cpu " ++ c.cpu
    ++ " \\\n    --memory " ++ c.memory
    ++ " \\\n    --replicas " ++ c.instances

/-- The embedding of `createService()`. -/
def createService (c : Config) (env : ProcessEnv) (sh : Shell) : Script Unit := do
  let _ ← runCommand sh (createCmd c env) "Creating combined service"
  pure ()

/-- The embedding of `updateService()`. -/
def updateService (c : Config) (sh : Shell) : Script Unit := do
  let _ ← runCommand sh (updateCmd c) "Updating service configuration"
  pure ()

/-- The embedding of `deployService()`. -/
def deployService (c : Config) (env : ProcessEnv) (sh : Shell) : Script Unit := do
  consoleLog "🚀 Starting Northflank deployment..."
  try
    let _ ← execSync sh (getCmd c)
    consoleLog "📝 Service exists, updating..."
    updateService c sh
  catch _ =>
    consoleLog "🆕 Service not found, creating new..."
    createService c env sh

/-- The embedding of `checkDeploymentStatus()`. -/
def checkDeploymentStatus (c : Config) (sh : Shell) : Script Unit := do
  consoleLog "🔍 Checking deployment status..."
  let _ ← runCommand sh (getCmd c) "Getting service status"
  pure ()

/-- The state a script run by the process leaves: an error nobody caught ends
the process with exit code 1. -/
def finish {α : Type} (r : Proc × Completion α) : Proc :=
  match r with
  | (p, .normal _) => p
  | (p, .thrown _) => { p with exitCode := some 1 }
  | (p, .exited) => p

/-- The main execution of the script on a fresh process: `deployService()`,
then the status check from the timer unless the process has exited. -/
def mainExecution (env : ProcessEnv) (sh : Shell) : Proc :=
  let c := config env
  match (deployService c env sh).run Proc.start with
  | (p, .normal _) => finish ((checkDeploymentStatus c sh).run p)
  | r => finish r

end Deploy

namespace Worker

/-! ## Header lists -/

theorem sameName_iff (a b : String) : sameName a b = true ↔ lowerName a = lowerName b := by
  simp [sameName]

theorem sameName_refl (a : String) : sameName a a = true := by
  simp [sameName]

theorem sameName_false_of_left {x m n : String} (hx : sameName x n = true)
    (hmn : sameName m n = false) : sameName x m = false := by
  cases h : sameName x m with
  | false => rfl
  | true =>
    have h1 := (sameName_iff x n).1 hx
    have h2 := (sameName_iff x m).1 h
    have h3 : sameName m n = true := (sameName_iff m n).2 (h2.symm.trans h1)
    rw [h3] at hmn
    cases hmn

/-- Entries selected by a name predicate that rejects every name matching `n`
are untouched by `replaceFirst n`. -/
theorem filter_replaceFirst_other (p : String → Bool) (n v : String)
    (hp : ∀ x, sameName x n = true → p x = false) (h : Headers) :
    (Headers.replaceFirst n v h).filter (fun e => p e.1) = h.filter (fun e => p e.1) := by
  induction h with
  | nil => rfl
  | cons e rest ih =>
    by_cases he : sameName e.1 n = true
    · have hpe : p e.1 = false := hp _ he
      simp only [Headers.replaceFirst, he, if_true, List.filter_cons, hpe, Bool.false_eq_true,
        if_false, List.filter_filter]
      apply List.filter_congr
      intro x _
      cases hx : sameName x.1 n with
      | false => simp
      | true => simp [hp _ hx]
    · simp only [Headers.replaceFirst, he, Bool.false_eq_true, if_false, List.filter_cons, ih]

/-- Entries selected by a name predicate that rejects every name matching `n`
are untouched by `set n`. -/
theorem filter_set_other (p : String → Bool) (n v : String)
    (hp : ∀ x, sameName x n = true → p x = false) (h : Headers) :
    (Headers.set h n v).filter (fun e => p e.1) = h.filter (fun e => p e.1) := by
  unfold Headers.set
  split
  · exact filter_replaceFirst_other p n v hp h
  · simp [List.filter_append, hp n (sameName_refl n)]

/-- After `replaceFirst n v` on a list containing `n`, the values under `n` are
exactly `[v]`. -/
theorem values_replaceFirst_same (n v : String) (h : Headers)
    (hany : h.any (fun e => sameName e.1 n) = true) :
    ((Headers.replaceFirst n v h).filter (fun e => sameName e.1 n)).map Prod.snd = [v] := by
  induction h with
  | nil => simp at hany
  | cons e rest ih =>
    by_cases he : sameName e.1 n = true
    · simp only [Headers.replaceFirst, he, if_true, List.filter_cons, List.filter_filter,
        List.map_cons]
      have : rest.filter (fun a => sameName a.1 n && !sameName a.1 n) = [] := by
        apply List.filter_eq_nil_iff.2
        intro a _
        cases sameName a.1 n <;> simp
      rw [this]
      rfl
    · have hrest : rest.any (fun e => sameName e.1 n) = true := by
        simp only [List.any_cons, Bool.or_eq_true] at hany
        rcases hany with h1 | h2
        · exact absurd h1 he
        · exact h2
      simp only [Headers.replaceFirst, he, Bool.false_eq_true, if_false, List.filter_cons,
        ih hrest]

/-- After `set n v`, the values under `n` are exactly `[v]`. -/
theorem values_set_same (n v : String) (h : Headers) :
    ((Headers.set h n v).filter (fun e => sameName e.1 n)).map Prod.snd = [v] := by
  unfold Headers.set
  split
  · next hany => exact values_replaceFirst_same n v h hany
  · next hany =>
    have hnil : h.filter (fun e => sameName e.1 n) = [] := by
      apply List.filter_eq_nil_iff.2
      intro a ha hs
      apply hany
      exact List.any_eq_true.2 ⟨a, ha, hs⟩
    simp [List.filter_append, hnil, sameName_refl]

theorem get_set_same (n v : String) (h : Headers) : (Headers.set h n v).get n = some v := by
  unfold Headers.get
  rw [values_set_same]
  rfl

theorem get_set_other (m n v : String) (hmn : sameName m n = false) (h : Headers) :
    (Headers.set h n v).get m = h.get m := by
  unfold Headers.get
  rw [filter_set_other (fun x => sameName x m) n v
    (fun x hx => sameName_false_of_left hx hmn) h]

end Worker

namespace Worker

/-! ## The forwarding operation -/

/-- The outbound calls of `handleVideoRequest` do not depend on what the backend
answers: there is exactly one, the forwarded request. -/
theorem handleVideoRequest_calls (request : Request) (env : Env) (backend : Backend) :
    (handleVideoRequest request env backend).calls = [forwardRequest request env] := by
  cases h : backend (forwardRequest request env) with
  | error e => simp only [handleVideoRequest, h]
  | ok response =>
    simp only [handleVideoRequest, h]
    split <;> rfl

/-- Claim C1: for a GET request and a backend response with status in 200..299,
`handleVideoRequest` resolves with a response that has the backend's status and
body, keeps every header entry whose name is neither Cache-Control nor
CF-Cache-Status (same names, same values, same order, hence the same value
under `get`), and carries Cache-Control with the single value
`public, max-age=3600` and CF-Cache-Status with the single value `HIT`,
whatever the backend had under those two names. -/
theorem handleVideoRequest_get_ok_sets_cache_headers
    (request : Request) (env : Env) (backend : Backend) (response : Response)
    (hmethod : request.method = "GET")
    (hbackend : backend (forwardRequest request env) = .ok response)
    (hstatus : 200 ≤ response.status ∧ response.status ≤ 299) :
    ∃ r : Response,
      (handleVideoRequest request env backend).result = .ok r ∧
      r.status = response.status ∧
      r.body = response.body ∧
      r.headers.filter
          (fun e => !sameName e.1 "Cache-Control" && !sameName e.1 "CF-Cache-Status") =
        response.headers.filter
          (fun e => !sameName e.1 "Cache-Control" && !sameName e.1 "CF-Cache-Status") ∧
      (∀ name : String, sameName name "Cache-Control" = false →
        sameName name "CF-Cache-Status" = false →
        r.headers.get name = response.headers.get name) ∧
      (r.headers.filter (fun e => sameName e.1 "Cache-Control")).map Prod.snd =
        ["public, max-age=3600"] ∧
      (r.headers.filter (fun e => sameName e.1 "CF-Cache-Status")).map Prod.snd = ["HIT"] ∧
      r.headers.get "Cache-Control" = some "public, max-age=3600" ∧
      r.headers.get "CF-Cache-Status" = some "HIT" := by
  have hok : response.ok = true := by
    simp [Response.ok, hstatus.1, hstatus.2]
  have hne : sameName "Cache-Control" "CF-Cache-Status" = false := by decide
  refine ⟨{ status := response.status, statusText := response.statusText,
            headers := (response.headers.set "Cache-Control" "public, max-age=3600").set
              "CF-Cache-Status" "HIT",
            body := response.body }, ?_, rfl, rfl, ?_, ?_, ?_, ?_, ?_, ?_⟩
  · unfold handleVideoRequest
    simp only [hbackend, hmethod, hok, and_self, if_true, Response.rewrap]
  · show List.filter _ (Headers.set (Headers.set response.headers _ _) _ _) = _
    rw [filter_set_other
        (fun x => !sameName x "Cache-Control" && !sameName x "CF-Cache-Status")
        "CF-Cache-Status" "HIT" (fun x hx => by simp [hx]),
      filter_set_other
        (fun x => !sameName x "Cache-Control" && !sameName x "CF-Cache-Status")
        "Cache-Control" "public, max-age=3600" (fun x hx => by simp [hx])]
  · intro name h1 h2
    show Headers.get (Headers.set (Headers.set response.headers _ _) _ _) name = _
    rw [get_set_other name "CF-Cache-Status" "HIT" h2,
      get_set_other name "Cache-Control" "public, max-age=3600" h1]
  · show List.map Prod.snd (List.filter _ (Headers.set (Headers.set response.headers _ _) _ _)) = _
    rw [filter_set_other (fun x => sameName x "Cache-Control") "CF-Cache-Status" "HIT"
      (fun x hx => sameName_false_of_left hx hne)]
    exact values_set_same _ _ _
  · exact values_set_same _ _ _
  · show Headers.get (Headers.set (Headers.set response.headers _ _) _ _) _ = _
    rw [get_set_other "Cache-Control" "CF-Cache-Status" "HIT" hne]
    exact get_set_same _ _ _
  · exact get_set_same _ _ _

/-- Witness for C1: a GET for `/api/short-video/abc123` answered with status 200
and headers that already carry `cache-control: no-store` and
`cf-cache-status: MISS`. -/
theorem handleVideoRequest_get_ok_sets_cache_headers_witness :
    ∃ r : Response,
      (handleVideoRequest
        ⟨"GET", ⟨"https://edge.example", "/api/short-video/abc123", "", ""⟩, [], none⟩
        ⟨none⟩
        (fun _ => .ok ⟨200, "OK",
          [("content-type", "video/mp4"), ("cache-control", "no-store"),
           ("cf-cache-status", "MISS")], some "bytes"⟩)).result = .ok r ∧
      r.status = 200 ∧ r.body = some "bytes" ∧
      r.headers.get "Content-Type" = some "video/mp4" ∧
      r.headers.get "Cache-Control" = some "public, max-age=3600" ∧
      r.headers.get "CF-Cache-Status" = some "HIT" := by
  obtain ⟨r, h1, h2, h3, _, h5, _, _, h8, h9⟩ :=
    handleVideoRequest_get_ok_sets_cache_headers
      ⟨"GET", ⟨"https://edge.example", "/api/short-video/abc123", "", ""⟩, [], none⟩
      ⟨none⟩
      (fun _ => .ok ⟨200, "OK",
        [("content-type", "video/mp4"), ("cache-control", "no-store"),
         ("cf-cache-status", "MISS")], some "bytes"⟩)
      ⟨200, "OK",
        [("content-type", "video/mp4"), ("cache-control", "no-store"),
         ("cf-cache-status", "MISS")], some "bytes"⟩
      rfl rfl (by decide)
  refine ⟨r, h1, h2, h3, ?_, h8, h9⟩
  rw [h5 "Content-Type" (by decide) (by decide)]
  decide

/-- Claim C2: when the method is not GET or the backend status is outside
200..299, `handleVideoRequest` resolves with the backend response itself, so
status, body and every header (Cache-Control and CF-Cache-Status included) are
the backend's. -/
theorem handleVideoRequest_passthrough
    (request : Request) (env : Env) (backend : Backend) (response : Response)
    (hbackend : backend (forwardRequest request env) = .ok response)
    (hcond : request.method ≠ "GET" ∨ ¬ (200 ≤ response.status ∧ response.status ≤ 299)) :
    (handleVideoRequest request env backend).result = .ok response := by
  have hnot : ¬ (request.method = "GET" ∧ response.ok = true) := by
    rintro ⟨hm, hok⟩
    rcases hcond with h | h
    · exact h hm
    · apply h
      simpa [Response.ok] using hok
  unfold handleVideoRequest
  simp only [hbackend, hnot, if_false]

/-- Witness for C2: a POST answered with 201 and a GET answered with 404 both
come back as the backend sent them. -/
theorem handleVideoRequest_passthrough_witness :
    (handleVideoRequest
      ⟨"POST", ⟨"https://edge.example", "/api/short-video", "", ""⟩, [], some "job"⟩ ⟨none⟩
      (fun _ => .ok ⟨201, "Created", [("content-type", "application/json")], some "id"⟩)).result
      = .ok ⟨201, "Created", [("content-type", "application/json")], some "id"⟩ ∧
    (handleVideoRequest
      ⟨"GET", ⟨"https://edge.example", "/api/short-video/xyz", "", ""⟩, [], none⟩ ⟨none⟩
      (fun _ => .ok ⟨404, "Not Found", [("x-a", "1")], some "missing"⟩)).result
      = .ok ⟨404, "Not Found", [("x-a", "1")], some "missing"⟩ :=
  ⟨handleVideoRequest_passthrough _ _ _ _ rfl (Or.inl (by decide)),
   handleVideoRequest_passthrough _ _ _ _ rfl (Or.inr (by decide))⟩

end Worker

namespace Worker

/-! ## Routing -/

theorem health_not_video : startsWith "/health" "/api/short-video" = false := by decide

/-- Claim C3: a request whose path is exactly `/health`, whatever its method,
headers, body and environment and whatever the backend would answer, is
answered with status 200, the body `{"status":"ok","worker":"active"}` and
Content-Type `application/json`, and no outbound call is made. -/
theorem fetch_health (request : Request) (env : Env) (backend : Backend)
    (hpath : request.url.pathname = "/health") :
    (fetch request env backend).calls = [] ∧
    ∃ r : Response,
      (fetch request env backend).result = .ok r ∧
      r.status = 200 ∧
      r.body = some "\x7b\"status\":\"ok\",\"worker\":\"active\"\x7d" ∧
      r.headers = [("Content-Type", "application/json")] ∧
      r.headers.get "Content-Type" = some "application/json" := by
  have hfetch : fetch request env backend = { calls := [], result := .ok healthResponse } := by
    simp only [fetch, hpath, health_not_video, Bool.false_eq_true, if_false, if_true]
  rw [hfetch]
  exact ⟨rfl, healthResponse, rfl, rfl, by decide, rfl, by decide⟩

/-- Witness for C3: a DELETE of `/health` with a body, under a backend that
would fail. -/
theorem fetch_health_witness :
    (fetch ⟨"DELETE", ⟨"https://edge.example", "/health", "?a=1", ""⟩,
        [("x-probe", "1")], some "payload"⟩ ⟨some "https://backend.example"⟩
        (fun _ => .error ⟨"unreachable"⟩)).calls = [] ∧
    ∃ r : Response,
      (fetch ⟨"DELETE", ⟨"https://edge.example", "/health", "?a=1", ""⟩,
        [("x-probe", "1")], some "payload"⟩ ⟨some "https://backend.example"⟩
        (fun _ => .error ⟨"unreachable"⟩)).result = .ok r ∧
      r.status = 200 ∧
      r.body = some "\x7b\"status\":\"ok\",\"worker\":\"active\"\x7d" ∧
      r.headers = [("Content-Type", "application/json")] ∧
      r.headers.get "Content-Type" = some "application/json" :=
  fetch_health _ _ _ rfl

/-- Claim C4: a request whose path neither starts with `/api/short-video` nor
equals `/health` is answered with status 404 and body `Not Found`, and no
outbound call is made. -/
theorem fetch_not_found (request : Request) (env : Env) (backend : Backend)
    (hvideo : startsWith request.url.pathname "/api/short-video" = false)
    (hhealth : request.url.pathname ≠ "/health") :
    (fetch request env backend).calls = [] ∧
    ∃ r : Response,
      (fetch request env backend).result = .ok r ∧
      r.status = 404 ∧ r.body = some "Not Found" := by
  have hfetch : fetch request env backend = { calls := [], result := .ok notFoundResponse } := by
    simp only [fetch, hvideo, hhealth, Bool.false_eq_true, if_false]
  rw [hfetch]
  exact ⟨rfl, notFoundResponse, rfl, rfl, rfl⟩

/-- Witness for C4: `/health/`, `/Health` and `/API/short-video` all miss both
routes. -/
theorem fetch_not_found_witness :
    ((fetch ⟨"GET", ⟨"https://edge.example", "/health/", "", ""⟩, [], none⟩ ⟨none⟩
        (fun _ => .error ⟨"unreachable"⟩)).calls = [] ∧
      ∃ r : Response,
        (fetch ⟨"GET", ⟨"https://edge.example", "/health/", "", ""⟩, [], none⟩ ⟨none⟩
          (fun _ => .error ⟨"unreachable"⟩)).result = .ok r ∧
        r.status = 404 ∧ r.body = some "Not Found") ∧
    ((fetch ⟨"GET", ⟨"https://edge.example", "/Health", "", ""⟩, [], none⟩ ⟨none⟩
        (fun _ => .error ⟨"unreachable"⟩)).calls = [] ∧
      ∃ r : Response,
        (fetch ⟨"GET", ⟨"https://edge.example", "/Health", "", ""⟩, [], none⟩ ⟨none⟩
          (fun _ => .error ⟨"unreachable"⟩)).result = .ok r ∧
        r.status = 404 ∧ r.body = some "Not Found") ∧
    ((fetch ⟨"POST", ⟨"https://edge.example", "/API/short-video", "", ""⟩, [], some "x"⟩ ⟨none⟩
        (fun _ => .error ⟨"unreachable"⟩)).calls = [] ∧
      ∃ r : Response,
        (fetch ⟨"POST", ⟨"https://edge.example", "/API/short-video", "", ""⟩, [], some "x"⟩
          ⟨none⟩ (fun _ => .error ⟨"unreachable"⟩)).result = .ok r ∧
        r.status = 404 ∧ r.body = some "Not Found") :=
  ⟨fetch_not_found _ _ _ (by decide) (by decide),
   fetch_not_found _ _ _ (by decide) (by decide),
   fetch_not_found _ _ _ (by decide) (by decide)⟩

/-! ## The outbound request -/

/-- Counterexample to C5 as stated: the request for `/api/short-video/abc?x=1`
is forwarded to `<base>/api/short-video/abc`; the outbound URL is not the base
followed by path and query string. -/
theorem forward_url_drops_query :
    ((handleVideoRequest
        ⟨"GET", ⟨"https://edge.example", "/api/short-video/abc", "?x=1", ""⟩, [], none⟩
        ⟨none⟩ (fun _ => .error ⟨"unreachable"⟩)).calls.map (fun o => o.url)
      = ["https://shirt-video-maker.app.northflank.com/api/short-video/abc"]) ∧
    ((handleVideoRequest
        ⟨"GET", ⟨"https://edge.example", "/api/short-video/abc", "?x=1", ""⟩, [], none⟩
        ⟨none⟩ (fun _ => .error ⟨"unreachable"⟩)).calls.map (fun o => o.url)
      ≠ [northflankUrl ⟨none⟩ ++ "/api/short-video/abc" ++ "?x=1"]) := by
  constructor <;> decide

/-- Claim C5, amended: the outbound URL of `handleVideoRequest` is the resolved
base URL followed by the request's path only; no other part of the request's
URL enters it. -/
theorem forward_url_is_base_and_path (request : Request) (env : Env) (backend : Backend) :
    (handleVideoRequest request env backend).calls.map (fun o => o.url)
      = [northflankUrl env ++ request.url.pathname] := by
  rw [handleVideoRequest_calls]
  rfl

/-- Claim C6: the base URL used by `handleVideoRequest` is the value of
`NORTHFLANK_SERVICE_URL` when that is set and non-empty, and
`https://shirt-video-maker.app.northflank.com` when it is unset or empty; it is
the prefix of the one outbound URL, and it is determined by the environment. -/
theorem northflankUrl_resolution (env : Env) :
    (∀ s : String, env.NORTHFLANK_SERVICE_URL = some s → s ≠ "" → northflankUrl env = s) ∧
    (env.NORTHFLANK_SERVICE_URL = none ∨ env.NORTHFLANK_SERVICE_URL = some "" →
      northflankUrl env = "https://shirt-video-maker.app.northflank.com") ∧
    (∀ (request : Request) (backend : Backend),
      (handleVideoRequest request env backend).calls.map (fun o => o.url)
        = [northflankUrl env ++ request.url.pathname]) ∧
    (∀ env2 : Env, env2.NORTHFLANK_SERVICE_URL = env.NORTHFLANK_SERVICE_URL →
      northflankUrl env2 = northflankUrl env) := by
  refine ⟨?_, ?_, ?_, ?_⟩
  · intro s hs hne
    simp [northflankUrl, orDefault, hs, hne]
  · rintro (h | h) <;> simp [northflankUrl, orDefault, h, defaultServiceUrl]
  · intro request backend
    rw [handleVideoRequest_calls]
    rfl
  · intro env2 h
    simp [northflankUrl, h]

/-- Witness for C6: a set value is used, and both the unset and the empty
value fall back to the default. -/
theorem northflankUrl_resolution_witness :
    northflankUrl ⟨some "https://backend.example"⟩ = "https://backend.example" ∧
    northflankUrl ⟨none⟩ = "https://shirt-video-maker.app.northflank.com" ∧
    northflankUrl ⟨some ""⟩ = "https://shirt-video-maker.app.northflank.com" :=
  ⟨(northflankUrl_resolution ⟨some "https://backend.example"⟩).1 _ rfl (by decide),
   (northflankUrl_resolution ⟨none⟩).2.1 (Or.inl rfl),
   (northflankUrl_resolution ⟨some ""⟩).2.1 (Or.inr rfl)⟩

/-- Claim C7: `handleVideoRequest` issues exactly one outbound request, and that
request has the method, the header list and the body of the inbound request. -/
theorem forward_keeps_method_headers_body (request : Request) (env : Env) (backend : Backend) :
    ∃ o : OutboundRequest,
      (handleVideoRequest request env backend).calls = [o] ∧
      o.method = request.method ∧ o.headers = request.headers ∧ o.body = request.body :=
  ⟨forwardRequest request env, handleVideoRequest_calls request env backend, rfl, rfl, rfl⟩

/-- Claim C8: for a path starting with `/api/short-video`, when the outbound call
rejects, the handler rejects with that same failure, having made that one
outbound call and no other. -/
theorem fetch_propagates_backend_failure
    (request : Request) (env : Env) (backend : Backend) (e : Failure)
    (hpath : startsWith request.url.pathname "/api/short-video" = true)
    (hfail : backend (forwardRequest request env) = .error e) :
    (fetch request env backend).result = .error e ∧
    (fetch request env backend).calls = [forwardRequest request env] := by
  have hfetch : fetch request env backend = handleVideoRequest request env backend := by
    simp only [fetch, hpath, if_true]
  rw [hfetch]
  refine ⟨?_, handleVideoRequest_calls request env backend⟩
  simp only [handleVideoRequest, hfail]

/-- Witness for C8: a GET for `/api/short-video/abc` with the backend
unreachable. -/
theorem fetch_propagates_backend_failure_witness :
    (fetch ⟨"GET", ⟨"https://edge.example", "/api/short-video/abc", "", ""⟩, [], none⟩ ⟨none⟩
        (fun _ => .error ⟨"connection refused"⟩)).result = .error ⟨"connection refused"⟩ ∧
    (fetch ⟨"GET", ⟨"https://edge.example", "/api/short-video/abc", "", ""⟩, [], none⟩ ⟨none⟩
        (fun _ => .error ⟨"connection refused"⟩)).calls
      = [forwardRequest
          ⟨"GET", ⟨"https://edge.example", "/api/short-video/abc", "", ""⟩, [], none⟩ ⟨none⟩] :=
  fetch_propagates_backend_failure _ _ _ _ (by decide) rfl

/-- Claim C9: for a path starting with `/api/short-video` the handler is
`handleVideoRequest` on that request: it makes exactly one outbound call, and
any response it resolves with is built from a response of the backend (same
status, same body), not a locally made one. -/
theorem fetch_video_route_first (request : Request) (env : Env) (backend : Backend)
    (hpath : startsWith request.url.pathname "/api/short-video" = true) :
    fetch request env backend = handleVideoRequest request env backend ∧
    (fetch request env backend).calls.length = 1 ∧
    (∀ r : Response, (fetch request env backend).result = .ok r →
      ∃ b : Response, backend (forwardRequest request env) = .ok b ∧
        r.status = b.status ∧ r.body = b.body) := by
  have hfetch : fetch request env backend = handleVideoRequest request env backend := by
    simp only [fetch, hpath, if_true]
  rw [hfetch]
  refine ⟨rfl, ?_, ?_⟩
  · rw [handleVideoRequest_calls]
    rfl
  · intro r hr
    cases hb : backend (forwardRequest request env) with
    | error e =>
      simp only [handleVideoRequest, hb] at hr
      cases hr
    | ok b =>
      refine ⟨b, rfl, ?_⟩
      simp only [handleVideoRequest, hb] at hr
      split at hr
      · cases hr
        exact ⟨rfl, rfl⟩
      · cases hr
        exact ⟨rfl, rfl⟩

/-- Witness for C9: `/api/short-video/health` is forwarded, not answered by the
health route; so are `/api/short-videos` and `/api/short-videoX`. -/
theorem fetch_video_route_first_witness :
    (fetch ⟨"GET", ⟨"https://edge.example", "/api/short-video/health", "", ""⟩, [], none⟩ ⟨none⟩
        (fun _ => .ok ⟨503, "", [], some "busy"⟩)).calls.length = 1 ∧
    (fetch ⟨"GET", ⟨"https://edge.example", "/api/short-videos", "", ""⟩, [], none⟩ ⟨none⟩
        (fun _ => .ok ⟨503, "", [], some "busy"⟩)).calls.length = 1 ∧
    (fetch ⟨"GET", ⟨"https://edge.example", "/api/short-videoX", "", ""⟩, [], none⟩ ⟨none⟩
        (fun _ => .ok ⟨503, "", [], some "busy"⟩)).calls.length = 1 :=
  ⟨(fetch_video_route_first _ _ _ (by decide)).2.1,
   (fetch_video_route_first _ _ _ (by decide)).2.1,
   (fetch_video_route_first _ _ _ (by decide)).2.1⟩

end Worker

namespace Scale

/-! ## Validation of the replica count -/

/-- The first command `runCommand` hands to the shell from a state without
commands is the given one, whatever follows. -/
theorem runCommand_commands (sh : Shell) (command description : String) (p : Proc) :
    (runCommand sh command description p).1.commands = p.commands ++ [command] := by
  cases h : sh p.commands command with
  | error message => simp only [runCommand, Proc.print, h]
  | ok output => simp only [runCommand, Proc.print, h]

/-- The script with an accepted argument: the scale command comes first. -/
theorem scaleService_accepted (env : ProcessEnv) (argv : List String) (sh : Shell)
    (h : (isFalsy (argv.get? 2) || isNaN (argv.get? 2)) = false) :
    (scaleService env argv sh).commands.head? = some (scaleCmd (config env) (argv.get? 2)) := by
  unfold scaleService
  simp only [h, Bool.false_eq_true, if_false]
  split
  · rw [runCommand_commands]
    rfl
  · unfold checkScalingStatus
    rw [runCommand_commands, runCommand_commands]
    rfl

/-- The script with a rejected argument: no command, exit code 1. -/
theorem scaleService_rejected (env : ProcessEnv) (argv : List String) (sh : Shell)
    (h : (isFalsy (argv.get? 2) || isNaN (argv.get? 2)) = true) :
    (scaleService env argv sh).commands = [] ∧ (scaleService env argv sh).exitCode = some 1 := by
  unfold scaleService
  simp only [h, if_true]
  exact ⟨rfl, trivial⟩

/-- Claim C10: `scaleService` issues the scale command, with the argument placed
verbatim after `--replicas`, when the argument is present, non-empty and not
`NaN` under number coercion; when the argument is missing, empty or coerces to
`NaN` the script exits with code 1 without issuing any command; so a command is
issued only for a present, non-empty, numeric argument. -/
theorem scaleService_validates_replicas (env : ProcessEnv) (argv : List String) (sh : Shell) :
    (∀ r : String, argv.get? 2 = some r → r ≠ "" → isNaN (some r) = false →
      (scaleService env argv sh).commands.head? =
        some ("northflank scale service " ++ (config env).serviceName ++ " --project "
          ++ (config env).projectName ++ " --replicas " ++ r)) ∧
    ((argv.get? 2 = none ∨ argv.get? 2 = some "" ∨
        ∃ r : String, argv.get? 2 = some r ∧ isNaN (some r) = true) →
      (scaleService env argv sh).commands = [] ∧
      (scaleService env argv sh).exitCode = some 1) ∧
    ((scaleService env argv sh).commands ≠ [] →
      ∃ r : String, argv.get? 2 = some r ∧ r ≠ "" ∧ isNaN (some r) = false) := by
  refine ⟨?_, ?_, ?_⟩
  · intro r hr hne hnum
    have h : (isFalsy (argv.get? 2) || isNaN (argv.get? 2)) = false := by
      rw [hr, hnum]
      simp [isFalsy, hne]
    rw [scaleService_accepted env argv sh h, hr]
    rfl
  · intro hbad
    apply scaleService_rejected
    rcases hbad with h | h | ⟨r, h, hnan⟩
    · rw [h]; rfl
    · rw [h]; rfl
    · rw [h, hnan]
      simp
  · intro hcmd
    cases hr : argv.get? 2 with
    | none =>
      exact absurd (scaleService_rejected env argv sh (by rw [hr]; rfl)).1 hcmd
    | some r =>
      refine ⟨r, rfl, ?_, ?_⟩
      · intro he
        exact absurd (scaleService_rejected env argv sh (by rw [hr, he]; rfl)).1 hcmd
      · cases hnan : isNaN (some r) with
        | false => rfl
        | true =>
          exact absurd (scaleService_rejected env argv sh (by rw [hr, hnan]; simp)).1 hcmd

/-- Witness for C10: `-3`, `1.5`, `1e3` and `0x10` pass the check and reach the
command line unchanged; a missing argument, the empty string and `abc` end the
script with exit code 1 and no command. -/
theorem scaleService_validates_replicas_witness :
    (scaleService ⟨none, none⟩ ["node", "scale.js", "-3"] (fun _ _ => .ok "")).commands.head? =
      some "northflank scale service shirt-video-maker --project n8n-shirtvideo-mcp --replicas -3" ∧
    (scaleService ⟨none, none⟩ ["node", "scale.js", "1.5"] (fun _ _ => .ok "")).commands.head? =
      some "northflank scale service shirt-video-maker --project n8n-shirtvideo-mcp --replicas 1.5" ∧
    (scaleService ⟨none, none⟩ ["node", "scale.js", "1e3"] (fun _ _ => .ok "")).commands.head? =
      some "northflank scale service shirt-video-maker --project n8n-shirtvideo-mcp --replicas 1e3" ∧
    (scaleService ⟨none, none⟩ ["node", "scale.js", "0x10"] (fun _ _ => .ok "")).commands.head? =
      some "northflank scale service shirt-video-maker --project n8n-shirtvideo-mcp --replicas 0x10" ∧
    ((scaleService ⟨none, none⟩ ["node", "scale.js"] (fun _ _ => .ok "")).commands = [] ∧
      (scaleService ⟨none, none⟩ ["node", "scale.js"] (fun _ _ => .ok "")).exitCode = some 1) ∧
    ((scaleService ⟨none, none⟩ ["node", "scale.js", ""] (fun _ _ => .ok "")).commands = [] ∧
      (scaleService ⟨none, none⟩ ["node", "scale.js", ""] (fun _ _ => .ok "")).exitCode = some 1) ∧
    ((scaleService ⟨none, none⟩ ["node", "scale.js", "abc"] (fun _ _ => .ok "")).commands = [] ∧
      (scaleService ⟨none, none⟩ ["node", "scale.js", "abc"] (fun _ _ => .ok "")).exitCode
        = some 1) :=
  ⟨(scaleService_validates_replicas _ _ _).1 "-3" rfl (by decide) (by decide),
   (scaleService_validates_replicas _ _ _).1 "1.5" rfl (by decide) (by decide),
   (scaleService_validates_replicas _ _ _).1 "1e3" rfl (by decide) (by decide),
   (scaleService_validates_replicas _ _ _).1 "0x10" rfl (by decide) (by decide),
   (scaleService_validates_replicas _ _ _).2.1 (Or.inl rfl),
   (scaleService_validates_replicas _ _ _).2.1 (Or.inr (Or.inl rfl)),
   (scaleService_validates_replicas _ _ _).2.1 (Or.inr (Or.inr ⟨"abc", rfl, by decide⟩))⟩

end Scale

namespace Deploy

/-! ## One mutating command -/

open Scale (Proc Shell Stream)

/-- What `runCommand` does, by the outcome of the command: it never throws. -/
theorem runCommand_run (sh : Shell) (command description : String) (p : Proc) :
    (runCommand sh command description).run p =
      match sh p.commands command with
      | .ok output =>
        ({ commands := p.commands ++ [command]
           log := p.log ++ [(Stream.out, "🔄 " ++ description ++ "..."),
             (Stream.out, "✅ " ++ description ++ " completed")]
           exitCode := p.exitCode }, .normal output)
      | .error message =>
        ({ commands := p.commands ++ [command]
           log := p.log ++ [(Stream.out, "🔄 " ++ description ++ "..."),
             (Stream.err, "❌ " ++ description ++ " failed: " ++ message)]
           exitCode := some 1 }, .exited) := by
  cases h : sh p.commands command with
  | ok output =>
    simp [runCommand, Script.run, bind, Script.bind, tryCatch, tryCatchThe,
      MonadExcept.tryCatch, MonadExceptOf.tryCatch, Script.tryCatch, consoleLog, consoleError,
      processExit, execSync, pure, Script.pure, Proc.print, h]
  | error message =>
    simp [runCommand, Script.run, bind, Script.bind, tryCatch, tryCatchThe,
      MonadExcept.tryCatch, MonadExceptOf.tryCatch, Script.tryCatch, consoleLog, consoleError,
      processExit, execSync, pure, Script.pure, Proc.print, h]

/-- What `deployService` does on a fresh process, by the outcome of the
existence check and of the one command that follows it. -/
theorem deployService_run (c : Config) (env : ProcessEnv) (sh : Shell) :
    (deployService c env sh).run Proc.start =
      match sh [] (getCmd c) with
      | .ok _ =>
        match sh [getCmd c] (updateCmd c) with
        | .ok _ =>
          ({ commands := [getCmd c, updateCmd c]
             log := [(Stream.out, "🚀 Starting Northflank deployment..."),
               (Stream.out, "📝 Service exists, updating..."),
               (Stream.out, "🔄 Updating service configuration..."),
               (Stream.out, "✅ Updating service configuration completed")]
             exitCode := none }, .normal ())
        | .error message =>
          ({ commands := [getCmd c, updateCmd c]
             log := [(Stream.out, "🚀 Starting Northflank deployment..."),
               (Stream.out, "📝 Service exists, updating..."),
               (Stream.out, "🔄 Updating service configuration..."),
               (Stream.err, "❌ Updating service configuration failed: " ++ message)]
             exitCode := some 1 }, .exited)
      | .error _ =>
        match sh [getCmd c] (createCmd c env) with
        | .ok _ =>
          ({ commands := [getCmd c, createCmd c env]
             log := [(Stream.out, "🚀 Starting Northflank deployment..."),
               (Stream.out, "🆕 Service not found, creating new..."),
               (Stream.out, "🔄 Creating combined service..."),
               (Stream.out, "✅ Creating combined service completed")]
             exitCode := none }, .normal ())
        | .error message =>
          ({ commands := [getCmd c, createCmd c env]
             log := [(Stream.out, "🚀 Starting Northflank deployment..."),
               (Stream.out, "🆕 Service not found, creating new..."),
               (Stream.out, "🔄 Creating combined service..."),
               (Stream.err, "❌ Creating combined service failed: " ++ message)]
             exitCode := some 1 }, .exited) := by
  cases h1 : sh [] (getCmd c) with
  | ok out1 =>
    cases h2 : sh [getCmd c] (updateCmd c) with
    | ok out2 =>
      simp [deployService, updateService, runCommand, Script.run, bind, Script.bind, tryCatch,
        tryCatchThe, MonadExcept.tryCatch, MonadExceptOf.tryCatch, Script.tryCatch, consoleLog,
        consoleError, processExit, execSync, pure, Script.pure, Proc.print, Proc.start, h1, h2]
    | error message =>
      simp [deployService, updateService, runCommand, Script.run, bind, Script.bind, tryCatch,
        tryCatchThe, MonadExcept.tryCatch, MonadExceptOf.tryCatch, Script.tryCatch, consoleLog,
        consoleError, processExit, execSync, pure, Script.pure, Proc.print, Proc.start, h1, h2]
  | error message1 =>
    cases h2 : sh [getCmd c] (createCmd c env) with
    | ok out2 =>
      simp [deployService, createService, runCommand, Script.run, bind, Script.bind, tryCatch,
        tryCatchThe, MonadExcept.tryCatch, MonadExceptOf.tryCatch, Script.tryCatch, consoleLog,
        consoleError, processExit, execSync, pure, Script.pure, Proc.print, Proc.start, h1, h2]
    | error message =>
      simp [deployService, createService, runCommand, Script.run, bind, Script.bind, tryCatch,
        tryCatchThe, MonadExcept.tryCatch, MonadExceptOf.tryCatch, Script.tryCatch, consoleLog,
        consoleError, processExit, execSync, pure, Script.pure, Proc.print, Proc.start, h1, h2]

/-- A string that begins with the literal `p` has the characters of `p` at the
positions of `p`. -/
theorem data_get_append (p rest : String) (i : Nat) (h : i < p.length) :
    (p ++ rest).data[i]? = p.data[i]? := by
  rw [String.data_append]
  exact List.getElem?_append_left h

/-- The create command is not the update command: they differ at the verb. -/
theorem createCmd_ne_updateCmd (c : Config) (env : ProcessEnv) :
    createCmd c env ≠ updateCmd c := by
  intro h
  have h11 := congrArg (fun s : String => s.data[11]?) h
  simp only [createCmd, updateCmd, String.append_assoc] at h11
  rw [data_get_append _ _ 11 (by decide), data_get_append _ _ 11 (by decide)] at h11
  revert h11
  decide

/-- The create command is not the check command. -/
theorem createCmd_ne_getCmd (c : Config) (env : ProcessEnv) :
    createCmd c env ≠ getCmd c := by
  intro h
  have h11 := congrArg (fun s : String => s.data[11]?) h
  simp only [createCmd, getCmd, String.append_assoc] at h11
  rw [data_get_append _ _ 11 (by decide), data_get_append _ _ 11 (by decide)] at h11
  revert h11
  decide

/-- The update command is not the check command. -/
theorem updateCmd_ne_getCmd (c : Config) : updateCmd c ≠ getCmd c := by
  intro h
  have h11 := congrArg (fun s : String => s.data[11]?) h
  simp only [updateCmd, getCmd, String.append_assoc] at h11
  rw [data_get_append _ _ 11 (by decide), data_get_append _ _ 11 (by decide)] at h11
  revert h11
  decide

/-- Claim C11: `deployService` issues exactly one of the two mutating commands.
When the existence check succeeds it issues the check and then the update
command, and never the create command; when the check fails it issues the
check and then the create command, and never the update command; when the
update command itself fails the process exits with code 1, the create command
is not reached, and the script as a whole ends with exit code 1 after those two
commands. -/
theorem deployService_one_mutating_command (env : ProcessEnv) (sh : Shell) :
    (∀ out : String, sh [] (getCmd (config env)) = .ok out →
      ((deployService (config env) env sh).run Proc.start).1.commands
        = [getCmd (config env), updateCmd (config env)] ∧
      createCmd (config env) env ∉
        ((deployService (config env) env sh).run Proc.start).1.commands) ∧
    (∀ message : String, sh [] (getCmd (config env)) = .error message →
      ((deployService (config env) env sh).run Proc.start).1.commands
        = [getCmd (config env), createCmd (config env) env] ∧
      updateCmd (config env) ∉
        ((deployService (config env) env sh).run Proc.start).1.commands) ∧
    (∀ out message : String, sh [] (getCmd (config env)) = .ok out →
      sh [getCmd (config env)] (updateCmd (config env)) = .error message →
      ((deployService (config env) env sh).run Proc.start).2 = .exited ∧
      ((deployService (config env) env sh).run Proc.start).1.exitCode = some 1 ∧
      (mainExecution env sh).exitCode = some 1 ∧
      (mainExecution env sh).commands = [getCmd (config env), updateCmd (config env)]) := by
  refine ⟨?_, ?_, ?_⟩
  · intro out h1
    have hcmds : ((deployService (config env) env sh).run Proc.start).1.commands
        = [getCmd (config env), updateCmd (config env)] := by
      rw [deployService_run, h1]
      cases sh [getCmd (config env)] (updateCmd (config env)) <;> rfl
    refine ⟨hcmds, ?_⟩
    rw [hcmds]
    simp [createCmd_ne_getCmd, createCmd_ne_updateCmd]
  · intro message h1
    have hcmds : ((deployService (config env) env sh).run Proc.start).1.commands
        = [getCmd (config env), createCmd (config env) env] := by
      rw [deployService_run, h1]
      cases sh [getCmd (config env)] (createCmd (config env) env) <;> rfl
    refine ⟨hcmds, ?_⟩
    rw [hcmds]
    simp [updateCmd_ne_getCmd, (createCmd_ne_updateCmd (config env) env).symm]
  · intro out message h1 h2
    have hrun := deployService_run (config env) env sh
    rw [h1] at hrun
    simp only [h2] at hrun
    refine ⟨by rw [hrun], by rw [hrun], ?_, ?_⟩
    · simp only [mainExecution, hrun, finish]
    · simp only [mainExecution, hrun, finish]

/-- Witness for C11, in the empty environment: a shell on which the check
succeeds and the update fails, and a shell on which every command fails. -/
theorem deployService_one_mutating_command_witness :
    (((deployService (config ProcessEnv.empty) ProcessEnv.empty
        (fun h _ => match h with
          | [] => .ok "found"
          | _ => .error "update refused")).run Proc.start).1.commands
        = [getCmd (config ProcessEnv.empty), updateCmd (config ProcessEnv.empty)] ∧
      createCmd (config ProcessEnv.empty) ProcessEnv.empty ∉
        ((deployService (config ProcessEnv.empty) ProcessEnv.empty
          (fun h _ => match h with
            | [] => .ok "found"
            | _ => .error "update refused")).run Proc.start).1.commands) ∧
    (((deployService (config ProcessEnv.empty) ProcessEnv.empty
        (fun _ _ => .error "not found")).run Proc.start).1.commands
        = [getCmd (config ProcessEnv.empty),
           createCmd (config ProcessEnv.empty) ProcessEnv.empty] ∧
      updateCmd (config ProcessEnv.empty) ∉
        ((deployService (config ProcessEnv.empty) ProcessEnv.empty
          (fun _ _ => .error "not found")).run Proc.start).1.commands) ∧
    (((deployService (config ProcessEnv.empty) ProcessEnv.empty
        (fun h _ => match h with
          | [] => .ok "found"
          | _ => .error "update refused")).run Proc.start).2 = .exited ∧
      ((deployService (config ProcessEnv.empty) ProcessEnv.empty
        (fun h _ => match h with
          | [] => .ok "found"
          | _ => .error "update refused")).run Proc.start).1.exitCode = some 1 ∧
      (mainExecution ProcessEnv.empty
        (fun h _ => match h with
          | [] => .ok "found"
          | _ => .error "update refused")).exitCode = some 1 ∧
      (mainExecution ProcessEnv.empty
        (fun h _ => match h with
          | [] => .ok "found"
          | _ => .error "update refused")).commands
        = [getCmd (config ProcessEnv.empty), updateCmd (config ProcessEnv.empty)]) :=
  ⟨(deployService_one_mutating_command ProcessEnv.empty _).1 "found" rfl,
   (deployService_one_mutating_command ProcessEnv.empty _).2.1 "not found" rfl,
   (deployService_one_mutating_command ProcessEnv.empty _).2.2 "found" "update refused" rfl rfl⟩

end Deploy
